import Mathlib

/-!
Verification of the mks-servo-rs485 wire-protocol layer.

The definitions below shallowly embed the Python sources:
  - `src/servo/servo.py`  (class `Servo`: register-map glue, IO read/write,
    absolute-angle move, current settings)
  - `src/source/io.py`    (older duplicate of the same module with a packed
    single-value IO write and a cascading hold-current computation)
Machine integers are modelled as `Nat`/`Int` with explicit wrapping where the
Python `struct` module wraps.  The Modbus-RTU frame codec (CRC16, encoder,
decoder, orchestrator) is not present under `src/`; those definitions are
modelled from the specification and marked as such in their doc comments.
-/

namespace MksServo

/-- Enum `MotorType` from `src/servo/servo.py`. -/
inductive MotorType where
  | SERVO_42_D
  | SERVO_57_D
deriving DecidableEq, Repr

/-- Dict `max_current_dict` from `src/servo/servo.py` (lines 22-25), as the lookup
`max_current_dict.get(motor_type, 0)`: both motor types are present in the
dict, so the default 0 is never returned. -/
def max_current_dict : MotorType → Int
  | .SERVO_42_D => 3000
  | .SERVO_57_D => 5200

/-- The stored fields of the `Servo` dataclass from `src/servo/servo.py`
(the `minimalmodbus` handle is external and carries no protocol state). -/
structure ServoState where
  address : Int
  max_current : Int
  hold_current_percent : Int
  microstep : Int
  motor_type : MotorType
deriving DecidableEq, Repr

/-- Constructor `Servo.__init__` from `src/servo/servo.py` (lines 110-117):
stores the address, clamps `max_current` with
`min(max_current, max_current_dict.get(motor_type, 0))`, and stores the
remaining parameters unchanged. -/
def Servo.init (motor_type : MotorType) (address max_current
    hold_current_percent microstep : Int) : ServoState :=
  { address := address
    max_current := min max_current (max_current_dict motor_type)
    hold_current_percent := hold_current_percent
    microstep := microstep
    motor_type := motor_type }

/-- Method `Servo.read_io` bit unpacking from `src/servo/servo.py` line 147
(identical in `src/source/io.py` line 49): given the 16-bit register value,
`return bool(io & 0b1000), bool(io & 0b0100), bool(io & 0b0010), bool(io & 0b0001)`. -/
def read_io_decode (v : Nat) : Bool × Bool × Bool × Bool :=
  (v &&& 0b1000 != 0, v &&& 0b0100 != 0, v &&& 0b0010 != 0, v &&& 0b0001 != 0)

/-- Method `Servo.write_io` from `src/servo/servo.py` (lines 175-184): the list of
16-bit register values passed to `write_registers(registeraddress=0x36, ...)`:
`out1_mask = out2_mask = 1`, `out_val_1 = out1_mask << 8 | int(out1)`,
`out_val_2 = out2_mask << 8 | int(out2)`, `out_values = [out_val_1, out_val_2]`. -/
def write_io_values (out1 out2 : Bool) : List Nat :=
  let out1_mask := 1
  let out2_mask := 1
  let o1 := out1.toNat
  let o2 := out2.toNat
  let out_val_1 := out1_mask <<< 8 ||| o1
  let out_val_2 := out2_mask <<< 8 ||| o2
  [out_val_1, out_val_2]

/-- The register address `Servo.write_io` writes to (`src/servo/servo.py`
line 184). -/
def write_io_register : Nat := 0x36

/-- Method `Servo.write_io` from `src/source/io.py` (lines 52-59): the packed value
`(out2_mask << 24) | out2 << 16 | out1_mask << 8 | out1` passed to
`write_register(0x36, out_values, 2)`. -/
def write_io_packed (out1 out2 : Bool) : Nat :=
  let out1_mask := 1
  let out2_mask := 1
  let o1 := out1.toNat
  let o2 := out2.toNat
  (out2_mask <<< 24) ||| (o2 <<< 16) ||| (out1_mask <<< 8) ||| o1

/-- The two big-endian 16-bit register words carried by the packed 32-bit
value of `write_io_packed` — the claim's reading of the single-value form as
a sequence of register values (high word first). -/
def write_io_packed_words (out1 out2 : Bool) : List Nat :=
  [write_io_packed out1 out2 >>> 16, write_io_packed out1 out2 &&& 0xFFFF]

/-- Big-endian byte pair of a 16-bit value (`struct` format `>H`). -/
def u16be (v : Nat) : List Nat :=
  [v / 2 ^ 8 % 2 ^ 8, v % 2 ^ 8]

/-- Big-endian byte quadruple of a 32-bit value. -/
def u32be (v : Nat) : List Nat :=
  [v / 2 ^ 24 % 2 ^ 8, v / 2 ^ 16 % 2 ^ 8, v / 2 ^ 8 % 2 ^ 8, v % 2 ^ 8]

/-- Python `struct.pack('>HHi', acc, speed, angle)` from
`Servo.move_to_absolute_angle` (`src/servo/servo.py` line 309,
`src/source/io.py` line 102): two big-endian unsigned 16-bit fields followed
by the signed 32-bit `angle` in two's complement (`angle` taken modulo
`2 ^ 32`), big-endian. -/
def pack_HHi (acc speed : Nat) (angle : Int) : List Nat :=
  u16be acc ++ u16be speed ++ u32be (angle.emod (2 ^ 32)).toNat

/-- Python `struct.unpack('>HHHH', ...)`: reads consecutive big-endian 16-bit words
from a byte sequence. -/
def unpack_words : List Nat → List Nat
  | hi :: lo :: rest => (hi * 2 ^ 8 + lo) :: unpack_words rest
  | _ => []

/-- Method `Servo.move_to_absolute_angle` from `src/servo/servo.py` (lines 306-311):
pack `'>HHi'`, unpack as four u16 words, and write them with
`write_registers(0x90, inputs)`.  Returns the register address and the word
list. -/
def move_to_absolute_angle (acc speed : Nat) (angle : Int) : Nat × List Nat :=
  (0x90, unpack_words (pack_HHi acc speed angle))

/-- Method `Servo.write_max_current` from `src/servo/servo.py` (lines 207-209):
writes the stored `max_current` to register 0x83 with function code 6. -/
def write_max_current (s : ServoState) : Nat × Int :=
  (0x83, s.max_current)

/-- Method `Servo.motor_hold_current` step computation from `src/source/io.py`
(lines 69-89): `hold_current_step = 0` then a cascade of independent `if`
statements, each overwriting the previous value. -/
def motor_hold_current_step (hold_current_percent : Int) : Int :=
  let s : Int := 0
  let s := if hold_current_percent > 10 then 1 else s
  let s := if hold_current_percent > 20 then 2 else s
  let s := if hold_current_percent > 30 then 3 else s
  let s := if hold_current_percent > 40 then 4 else s
  let s := if hold_current_percent > 50 then 5 else s
  let s := if hold_current_percent > 60 then 6 else s
  let s := if hold_current_percent > 70 then 7 else s
  let s := if hold_current_percent > 80 then 8 else s
  s

/-- Method `Servo.motor_hold_current` from `src/source/io.py` (line 89): writes the
computed step to register 0x9B. -/
def motor_hold_current (hold_current_percent : Int) : Nat × Int :=
  (0x9B, motor_hold_current_step hold_current_percent)

/-- Method `Servo.write_io` of `src/servo/servo.py` as a state transformer: the
method reads no mutable field and assigns none, so the dataclass state is
returned unchanged alongside the emitted register write. -/
def write_io_op (s : ServoState) (out1 out2 : Bool) :
    ServoState × (Nat × List Nat) :=
  (s, (write_io_register, write_io_values out1 out2))

/-- Method `Servo.move_to_absolute_angle` of `src/servo/servo.py` as a state
transformer: assigns no field of the dataclass. -/
def move_to_absolute_angle_op (s : ServoState) (acc speed : Nat)
    (angle : Int) : ServoState × (Nat × List Nat) :=
  (s, move_to_absolute_angle acc speed angle)

/-- Method `Servo.write_max_current` of `src/servo/servo.py` as a state
transformer: writes the stored `max_current` and assigns no field. -/
def write_max_current_op (s : ServoState) : ServoState × (Nat × Int) :=
  (s, write_max_current s)

/-- Modelled from the spec: the error taxonomy of the wire codec (section 7). -/
inductive CodecError where
  | invalidParameter
  | timeout
  | incompleteResponse (expected actual : Nat)
  | crcMismatch (calculated received : Nat)
deriving DecidableEq, Repr

/-- Modelled from the spec: one shift step of the CRC-16/MODBUS engine
(reflected polynomial 0xA001).  The CRC engine itself is not under `src/`;
the spec (section 4.1) mandates the standard Modbus CRC16 algorithm. -/
def crc16_shift (crc : Nat) : Nat :=
  if crc &&& 1 == 1 then (crc >>> 1) ^^^ 0xA001 else crc >>> 1

/-- Modelled from the spec: iteration helper for the CRC engine shifts. -/
def crc16_shiftN : Nat → Nat → Nat
  | 0, crc => crc
  | n + 1, crc => crc16_shiftN n (crc16_shift crc)

/-- Modelled from the spec: the CRC16 Engine (section 4.1), standard
CRC-16/MODBUS — initial register 0xFFFF, xor each byte into the register,
then eight reflected-polynomial shifts per byte. -/
def crc16 (bs : List Nat) : Nat :=
  bs.foldl (fun crc b => crc16_shiftN 8 (crc ^^^ b)) 0xFFFF

/-- Modelled from the spec: the Frame Encoder (sections 4.2 and 6) for a
read request, which is not under `src/`.  Validates the device address in
[0, 247] (`InvalidParameter` otherwise), then emits
`addr, fc, reg_hi, reg_lo, count_hi, count_lo, crc_lo, crc_hi` with the
register address and count big-endian and the CRC little-endian. -/
def encode_read (device_address fc register_address count : Nat) :
    Except CodecError (List Nat) :=
  if device_address ≤ 247 then
    let body := [device_address, fc,
                 register_address / 2 ^ 8 % 2 ^ 8, register_address % 2 ^ 8,
                 count / 2 ^ 8 % 2 ^ 8, count % 2 ^ 8]
    let crc := crc16 body
    .ok (body ++ [crc % 2 ^ 8, crc / 2 ^ 8])
  else
    .error .invalidParameter

/-- The request issued by `Servo.read_io` in `src/servo/servo.py` line 145:
`read_registers(functioncode=4, registeraddress=0x34, number_of_registers=1)`,
framed by the spec-modelled encoder. -/
def read_io_request (device_address : Nat) : Except CodecError (List Nat) :=
  encode_read device_address 0x04 0x34 1

/-- Modelled from the spec: the write-multiple payload field bytes
(section 4.2) — each 16-bit register value contributes its big-endian byte
pair, in list order. -/
def write_multiple_payload (values : List Nat) : List Nat :=
  (values.map u16be).flatten

/-- The payload field bytes of the write-multiple IO operation
(`Servo.write_io` of `src/servo/servo.py`). -/
def write_io_payload (out1 out2 : Bool) : List Nat :=
  write_multiple_payload (write_io_values out1 out2)

/-- Modelled from the spec: the Frame Decoder/Validator (section 4.4),
which is not under `src/`.  Checks the buffer length first
(`IncompleteResponse` reporting expected and actual), then recomputes the
CRC over `buffer[0:-2]` and compares it with the little-endian trailing
CRC (`CrcMismatch` reporting both).  The second component records whether
CRC validation was performed. -/
def decode_response (expected : Nat) (buffer : List Nat) :
    Except CodecError (List Nat) × Bool :=
  if buffer.length ≠ expected then
    (.error (.incompleteResponse expected buffer.length), false)
  else
    let payload := buffer.take (buffer.length - 2)
    let received_crc := buffer.getD (buffer.length - 2) 0 +
      buffer.getD (buffer.length - 1) 0 * 2 ^ 8
    let calc_crc := crc16 payload
    if calc_crc ≠ received_crc then
      (.error (.crcMismatch calc_crc received_crc), true)
    else
      (.ok payload, true)

/-- Modelled from the spec: the Request/Response Orchestrator (section 4.5)
for a read operation, which is not under `src/`.  Encodes first (a failure
here involves no transport interaction), then sends the frame and decodes
what the transport returns.  The second component is the list of bytes sent
on the transport. -/
def perform_request (transport : List Nat → List Nat)
    (device_address fc register_address count expected : Nat) :
    Except CodecError (List Nat) × List Nat :=
  match encode_read device_address fc register_address count with
  | .error e => (.error e, [])
  | .ok frame => ((decode_response expected (transport frame)).1, frame)

end MksServo

namespace MksServo

/-! ### Theorems for the claims settled so far -/

theorem and_two_pow_bne_zero (n i : Nat) :
    (n &&& 2 ^ i != 0) = n.testBit i := by
  rw [Nat.and_two_pow]
  cases h : n.testBit i <;> simp [h]

/-- C1: for every 16-bit status value, `read_io` unpacks the four booleans
from bit positions 3 down to 0 in that fixed order (IN_1 = bit 3, IN_2 =
bit 2, OUT_1 = bit 1, OUT_2 = bit 0); in particular status value 0x0B
decodes to (IN_1 = 1, IN_2 = 0, OUT_1 = 1, OUT_2 = 1). -/
theorem read_io_decode_bits (v : Nat) (hv : v < 2 ^ 16) :
    read_io_decode v = (v.testBit 3, v.testBit 2, v.testBit 1, v.testBit 0) ∧
    read_io_decode 0x0B = (true, false, true, true) := by
  refine ⟨?_, by decide⟩
  have h3 := and_two_pow_bne_zero v 3
  have h2 := and_two_pow_bne_zero v 2
  have h1 := and_two_pow_bne_zero v 1
  have h0 := and_two_pow_bne_zero v 0
  norm_num at h3 h2 h1 h0
  simp [read_io_decode, h3, h2, h1, h0]

theorem read_io_decode_bits_witness :
    read_io_decode 0x0B =
      ((0x0B : Nat).testBit 3, (0x0B : Nat).testBit 2,
       (0x0B : Nat).testBit 1, (0x0B : Nat).testBit 0) ∧
    read_io_decode 0x0B = (true, false, true, true) :=
  read_io_decode_bits 0x0B (by norm_num)

/-- C2 counterexample: at out1 = true, out2 = false the write-multiple IO
payload bytes are not in the claimed order out2_mask, out2_value, out1_mask,
out1_value, which would give [1, 0, 1, 1]. -/
theorem write_io_payload_counterexample :
    write_io_payload true false ≠ [1, 0, 1, 1] := by decide

/-- C2 (amended): for every pair of boolean outputs, the write-multiple IO
operation emits its payload fields in the fixed order out1_mask, out1_value,
out2_mask, out2_value. -/
theorem write_io_payload_order (out1 out2 : Bool) :
    write_io_payload out1 out2 = [1, out1.toNat, 1, out2.toNat] := by
  cases out1 <;> cases out2 <;> decide

/-- C6 counterexample: at out1 = true, out2 = false the packed single-value
IO-write form carries the register words [0x0100, 0x0101] while the
two-register form writes [0x0101, 0x0100] — not the same sequence. -/
theorem write_io_forms_counterexample :
    write_io_packed_words true false ≠ write_io_values true false := by decide

/-- C6 (amended): the packed single-value IO-write form carries the two
16-bit register words in the reverse order of the two-register form
(out2's word first instead of out1's); the two forms write the same
sequence of register values exactly when out1 = out2. -/
theorem write_io_forms_reverse (out1 out2 : Bool) :
    write_io_packed_words out1 out2 = (write_io_values out1 out2).reverse ∧
    (write_io_packed_words out1 out2 = write_io_values out1 out2 ↔
      out1 = out2) := by
  cases out1 <;> cases out2 <;> exact ⟨by decide, by decide⟩

/-- C3: for every acc and speed below 2 ^ 16 and every angle in
[-2 ^ 31, 2 ^ 31), `move_to_absolute_angle` writes to register 0x90 exactly
the four u16 words [acc, speed, (angle mod 2 ^ 32) div 2 ^ 16,
(angle mod 2 ^ 32) mod 2 ^ 16]: the signed 32-bit angle travels big-endian
in two's complement with no sign-extension error for negative angles. -/
theorem move_to_absolute_angle_words (acc speed : Nat) (angle : Int)
    (ha : acc < 2 ^ 16) (hs : speed < 2 ^ 16)
    (hlo : -2 ^ 31 ≤ angle) (hhi : angle < 2 ^ 31) :
    move_to_absolute_angle acc speed angle =
      (0x90, [acc, speed, (angle.emod (2 ^ 32)).toNat / 2 ^ 16,
              (angle.emod (2 ^ 32)).toNat % 2 ^ 16]) := by
  have h0 : 0 ≤ angle.emod (2 ^ 32) := Int.emod_nonneg _ (by norm_num)
  have h1 : angle.emod (2 ^ 32) < 2 ^ 32 := Int.emod_lt_of_pos _ (by norm_num)
  have hm : (angle.emod (2 ^ 32)).toNat < 2 ^ 32 := by omega
  unfold move_to_absolute_angle pack_HHi u16be u32be
  simp only [List.cons_append, List.nil_append, unpack_words,
    Prod.mk.injEq, List.cons.injEq, eq_self_iff_true, true_and, and_true]
  generalize (angle.emod (2 ^ 32)).toNat = m at hm
  omega

theorem move_to_absolute_angle_words_witness :
    move_to_absolute_angle 1 2 (-1) = (0x90, [1, 2, 65535, 65535]) := by
  have h := move_to_absolute_angle_words 1 2 (-1) (by norm_num) (by norm_num)
    (by norm_num) (by norm_num)
  rw [h]
  decide

/-- C4: the IO read request for device address 1 begins
01 04 00 34 00 01 — one register read at register address 0x34 with
function code 0x04, followed only by the CRC bytes. -/
theorem read_io_request_frame :
    (read_io_request 1).map (fun frame => frame.take 6) =
      Except.ok [0x01, 0x04, 0x00, 0x34, 0x00, 0x01] := by
  rfl

/-- C5: device addresses 0 and 247 are accepted by the encoder, while 248
is rejected with InvalidParameter; the rejection happens before any
transport interaction — whatever the transport, no bytes are sent. -/
theorem device_address_boundary (transport : List Nat → List Nat) :
    (∃ f, encode_read 0 0x04 0x34 1 = .ok f) ∧
    (∃ f, encode_read 247 0x04 0x34 1 = .ok f) ∧
    perform_request transport 248 0x04 0x34 1 8 =
      (.error .invalidParameter, []) :=
  ⟨⟨_, rfl⟩, ⟨_, rfl⟩, rfl⟩

/-- C7: whenever the received buffer length differs from the expected
fixed length, the decoder fails with IncompleteResponse reporting both
lengths, and CRC validation is not performed. -/
theorem decode_length_mismatch (expected : Nat) (buffer : List Nat)
    (h : buffer.length ≠ expected) :
    decode_response expected buffer =
      (.error (.incompleteResponse expected buffer.length), false) := by
  unfold decode_response
  rw [if_pos h]

theorem decode_length_mismatch_witness :
    decode_response 8 [1, 2, 3] =
      (.error (.incompleteResponse 8 3), false) :=
  decode_length_mismatch 8 [1, 2, 3] (by decide)

/-- C8: request encoding is deterministic — in this pure embedding, the
register address and register-value sequence of the IO write and of the
absolute-angle move are functions of their inputs, so two invocations on
the same inputs yield identical sequences. -/
theorem encode_deterministic (out1 out2 : Bool) (acc speed : Nat)
    (angle : Int) :
    (write_io_register, write_io_values out1 out2) =
      (write_io_register, write_io_values out1 out2) ∧
    move_to_absolute_angle acc speed angle =
      move_to_absolute_angle acc speed angle :=
  ⟨rfl, rfl⟩

/-- C9: construction clamps `max_current` with
`min(max_current, max_current_dict[motor_type])`, so the stored value never
exceeds the per-type ceiling (3000 for SERVO_42_D, 5200 for SERVO_57_D) nor
the caller-supplied value; `write_max_current` writes exactly the stored
value, hence never above the ceiling; and the modelled operations leave the
state — in particular `max_current` — unchanged. -/
theorem max_current_invariant (mt : MotorType) (address mc hcp ms : Int)
    (out1 out2 : Bool) (acc speed : Nat) (angle : Int) :
    (Servo.init mt address mc hcp ms).max_current ≤ max_current_dict mt ∧
    (Servo.init mt address mc hcp ms).max_current ≤ mc ∧
    (write_max_current (Servo.init mt address mc hcp ms)).2 ≤
      max_current_dict mt ∧
    (write_io_op (Servo.init mt address mc hcp ms) out1 out2).1 =
      Servo.init mt address mc hcp ms ∧
    (move_to_absolute_angle_op (Servo.init mt address mc hcp ms)
      acc speed angle).1 = Servo.init mt address mc hcp ms ∧
    (write_max_current_op (Servo.init mt address mc hcp ms)).1 =
      Servo.init mt address mc hcp ms :=
  ⟨min_le_right _ _, min_le_left _ _, min_le_right _ _, rfl, rfl, rfl⟩

/-- The cascade of overwriting `if` statements in `motor_hold_current`
collapses to a single nested conditional keyed on the highest threshold
exceeded. -/
theorem motor_hold_current_step_char (p : Int) :
    motor_hold_current_step p =
      if p > 80 then 8 else if p > 70 then 7 else if p > 60 then 6 else
      if p > 50 then 5 else if p > 40 then 4 else if p > 30 then 3 else
      if p > 20 then 2 else if p > 10 then 1 else 0 := rfl

/-- Closed form of the hold-current step: clamp the floor of
(percent - 1) / 10 into [0, 8]. -/
theorem motor_hold_current_step_closed (p : Int) :
    motor_hold_current_step p = min 8 (max 0 ((p - 1) / 10)) := by
  rw [motor_hold_current_step_char]
  split_ifs <;> omega

/-- C10: for every integer hold_current_percent, `motor_hold_current`
writes to register 0x9B a hold-current step in {0, ..., 8}, and the
written step is non-decreasing in hold_current_percent. -/
theorem motor_hold_current_range_mono (p q : Int) (h : p ≤ q) :
    (motor_hold_current p).1 = 0x9B ∧
    0 ≤ (motor_hold_current p).2 ∧ (motor_hold_current p).2 ≤ 8 ∧
    (motor_hold_current p).2 ≤ (motor_hold_current q).2 := by
  have hp := motor_hold_current_step_closed p
  have hq := motor_hold_current_step_closed q
  refine ⟨rfl, ?_, ?_, ?_⟩
  · show (0 : Int) ≤ motor_hold_current_step p
    omega
  · show motor_hold_current_step p ≤ 8
    omega
  · show motor_hold_current_step p ≤ motor_hold_current_step q
    omega

theorem motor_hold_current_range_mono_witness :
    (motor_hold_current 15).1 = 0x9B ∧
    0 ≤ (motor_hold_current 15).2 ∧ (motor_hold_current 15).2 ≤ 8 ∧
    (motor_hold_current 15).2 ≤ (motor_hold_current 37).2 :=
  motor_hold_current_range_mono 15 37 (by norm_num)

theorem write_io_payload_order_witness :
    write_io_payload true false =
      [1, (true : Bool).toNat, 1, (false : Bool).toNat] :=
  write_io_payload_order true false

theorem write_io_forms_reverse_witness :
    write_io_packed_words true false = (write_io_values true false).reverse ∧
    (write_io_packed_words true false = write_io_values true false ↔
      true = false) :=
  write_io_forms_reverse true false

theorem device_address_boundary_witness :
    (∃ f, encode_read 0 0x04 0x34 1 = .ok f) ∧
    (∃ f, encode_read 247 0x04 0x34 1 = .ok f) ∧
    perform_request (fun bs => bs) 248 0x04 0x34 1 8 =
      (.error .invalidParameter, []) :=
  device_address_boundary (fun bs => bs)

theorem encode_deterministic_witness :
    (write_io_register, write_io_values true false) =
      (write_io_register, write_io_values true false) ∧
    move_to_absolute_angle 1 2 (-1) = move_to_absolute_angle 1 2 (-1) :=
  encode_deterministic true false 1 2 (-1)

theorem max_current_invariant_witness :
    (Servo.init .SERVO_42_D 1 5000 20 16).max_current ≤
      max_current_dict .SERVO_42_D ∧
    (Servo.init .SERVO_42_D 1 5000 20 16).max_current ≤ 5000 ∧
    (write_max_current (Servo.init .SERVO_42_D 1 5000 20 16)).2 ≤
      max_current_dict .SERVO_42_D ∧
    (write_io_op (Servo.init .SERVO_42_D 1 5000 20 16) true false).1 =
      Servo.init .SERVO_42_D 1 5000 20 16 ∧
    (move_to_absolute_angle_op (Servo.init .SERVO_42_D 1 5000 20 16)
      1 2 (-1)).1 = Servo.init .SERVO_42_D 1 5000 20 16 ∧
    (write_max_current_op (Servo.init .SERVO_42_D 1 5000 20 16)).1 =
      Servo.init .SERVO_42_D 1 5000 20 16 :=
  max_current_invariant .SERVO_42_D 1 5000 20 16 true false 1 2 (-1)

end MksServo
